import Mathlib

/-!
Verification development for the Huawei inverter data adapter
(`custom_components/qilowatt/inverter/huawei.py`).

The adapter collects the enabled registry entities of a root device and of
its child devices, resolves named sensor values by string-suffix match,
coerces state text to typed values with defaults, and composes an energy
record and a metrics record.

Shallow embedding notes:
* Python floats are modelled by `Rat` for the in-range arithmetic the
  records compose; the builtin `float(s)` conversion is modelled at two
  levels: `parseFloat` covers plain decimal literals with an optional
  sign, fraction and exponent, and `parsePyFloat` refines it with the
  `inf`/`infinity`/`nan` spellings and IEEE-754 double overflow to a
  signed infinity, so that the uncaught `OverflowError` of
  `int(float(s))` in `get_state_int` is representable
  (`get_state_int_exc`); surrounding whitespace and digit underscores
  are not modelled.
* The host platform's entity registry is a list of `RegistryEntity` in map
  iteration order, the device registry a list of `RegistryDevice`, and
  `hass.states` a function `String → Option StateObj`.
* A Python `dict` keyed by strings is modelled as an association list with
  `dictInsert`, which overwrites in place on an existing key and appends a
  fresh key, matching insertion-ordered dict semantics.
-/

/-- A registry entity: `entity_id`, owning `device_id`, and the
`disabled_by` marker (`none` means the entity is enabled). -/
structure RegistryEntity where
  entity_id : String
  device_id : String
  disabled_by : Option String
deriving DecidableEq

/-- A registry device: its `id` and the optional parent link `via_device_id`. -/
structure RegistryDevice where
  id : String
  via_device_id : Option String
deriving DecidableEq

/-- A platform state object; only its `state` text is used by the adapter. -/
structure StateObj where
  state : String
deriving DecidableEq

/-- The `hass.states.get` lookup: entity identifier to optional state object. -/
def States : Type := String → Option StateObj

/-- Keys of an association list, in order. -/
def dictKeys (m : List (String × RegistryEntity)) : List String :=
  m.map Prod.fst

/-- Python dict assignment `m[k] = v`: overwrite in place when the key is
present, append otherwise. -/
def dictInsert (m : List (String × RegistryEntity)) (k : String) (v : RegistryEntity) :
    List (String × RegistryEntity) :=
  if k ∈ dictKeys m then
    m.map (fun p => if p.1 = k then (k, v) else p)
  else m ++ [(k, v)]

/-- One pass of `collect_device_entities` over the entity registry: insert
every enabled entity owned by device `devId` into the accumulator dict. -/
def addEnabledEntities (entities : List RegistryEntity) (devId : String)
    (m : List (String × RegistryEntity)) : List (String × RegistryEntity) :=
  entities.foldl
    (fun acc e =>
      if e.device_id = devId ∧ e.disabled_by = none then dictInsert acc e.entity_id e
      else acc)
    m

/-- The `enabled_count` computed for a child device in
`collect_device_entities`. -/
def enabledCount (entities : List RegistryEntity) (devId : String) : Nat :=
  (entities.filter (fun e => decide (e.device_id = devId ∧ e.disabled_by = none))).length

/-- The body of the child-device loop of `collect_device_entities`: a child
device contributes its enabled entities only when `via_device_id` points at
the root and it has at least one enabled entity. -/
def childStep (entities : List RegistryEntity) (root : String)
    (acc : List (String × RegistryEntity)) (d : RegistryDevice) :
    List (String × RegistryEntity) :=
  if d.via_device_id = some root then
    if 0 < enabledCount entities d.id then addEnabledEntities entities d.id acc
    else acc
  else acc

/-- `HuaweiInverter.collect_device_entities`: enabled entities of the root
device, then enabled entities of every child device that has at least one
enabled entity, accumulated into a dict keyed by entity identifier. -/
def collect_device_entities (entities : List RegistryEntity)
    (devices : List RegistryDevice) (root : String) :
    List (String × RegistryEntity) :=
  devices.foldl (childStep entities root) (addEnabledEntities entities root [])

/-- The adapter instance: `device_id` and `all_entities` are set in
`__init__`; `voltage` models the `self.voltage` attribute, absent (`none`)
until `get_energy_data` first assigns it. -/
structure HuaweiInverter where
  device_id : String
  all_entities : List (String × RegistryEntity)
  voltage : Option (List Rat)
deriving DecidableEq

/-- `HuaweiInverter.__init__`: store the device id and snapshot the
collected entity set. -/
def HuaweiInverter.init (entities : List RegistryEntity)
    (devices : List RegistryDevice) (root : String) : HuaweiInverter :=
  { device_id := root
    all_entities := collect_device_entities entities devices root
    voltage := none }

/-- Python `s.endswith(suffix)`. -/
def endswith (s suffix : String) : Bool :=
  suffix.data.isSuffixOf s.data

/-- `HuaweiInverter.find_entity_state`: the name `"inverter_power_derating"`
is looked up at the fixed identifier `number.inverter_power_derating`;
otherwise the first collected key (in map iteration order) ending with the
logical name is looked up, and `none` is returned when no key matches. -/
def find_entity_state (inv : HuaweiInverter) (states : States)
    (entity_id : String) : Option StateObj :=
  if entity_id = "inverter_power_derating" then
    states "number.inverter_power_derating"
  else
    match inv.all_entities.find? (fun p => endswith p.1 entity_id) with
    | some p => states p.1
    | none => none

/-- Value of a digit string, most significant digit first. -/
def digitsVal (ds : List Char) : Nat :=
  ds.foldl (fun n c => 10 * n + (c.toNat - 48)) 0

/-- Syntactic stage of the Python `float(s)` model: on a decimal literal
with optional sign, fraction and exponent, returns the signed mantissa
digits, the number of fraction digits, and the signed exponent; `none`
on any other text. -/
def parseFloatParts (s : String) : Option (Int × Nat × Int) :=
  let (sgn, cs) : Int × List Char :=
    match s.data with
    | '+' :: r => (1, r)
    | '-' :: r => (-1, r)
    | r => (1, r)
  let ip := cs.takeWhile Char.isDigit
  let cs1 := cs.dropWhile Char.isDigit
  let (fp, cs2) : List Char × List Char :=
    match cs1 with
    | '.' :: r => (r.takeWhile Char.isDigit, r.dropWhile Char.isDigit)
    | _ => ([], cs1)
  if ip.isEmpty && fp.isEmpty then none
  else
    let mant : Int := sgn * (digitsVal (ip ++ fp) : Int)
    match cs2 with
    | [] => some (mant, fp.length, 0)
    | c :: r =>
      if c = 'e' ∨ c = 'E' then
        let (esgn, r1) : Int × List Char :=
          match r with
          | '+' :: r2 => (1, r2)
          | '-' :: r2 => (-1, r2)
          | r2 => (1, r2)
        let ed := r1.takeWhile Char.isDigit
        let rest := r1.dropWhile Char.isDigit
        if ed.isEmpty ∨ ¬ rest.isEmpty then none
        else some (mant, fp.length, esgn * (digitsVal ed : Int))
      else none

/-- Rational value of the parts produced by `parseFloatParts`. -/
def ratOfParts (p : Int × Nat × Int) : Rat :=
  (p.1 : Rat) / (10 : Rat) ^ p.2.1 * (10 : Rat) ^ p.2.2

/-- Model of Python `float(s)` on decimal literals: optional sign, integer
part, optional fraction, optional exponent; `none` models the
`ValueError` raised on any other text (e.g. `"N/A"`, `""`, `"unknown"`).
Special spellings (`inf`, `nan`, whitespace, digit underscores) are not
modelled. -/
def parseFloat (s : String) : Option Rat :=
  (parseFloatParts s).map ratOfParts

/-- Python `int(x)` on a float: truncation toward zero. -/
def pyTrunc (q : Rat) : Int :=
  if q < 0 then -(Rat.floor (-q)) else Rat.floor q

/-- `HuaweiInverter.get_state_float`: resolve the state; unless the text is
one of the sentinels, convert with `float`, falling back to the default on
a conversion error or a missing state. -/
def get_state_float (inv : HuaweiInverter) (states : States)
    (entity_id : String) (default : Rat := 0) : Rat :=
  match find_entity_state inv states entity_id with
  | some st =>
    if st.state ≠ "unknown" ∧ st.state ≠ "unavailable" ∧ st.state ≠ "" then
      match parseFloat st.state with
      | some v => v
      | none => default
    else default
  | none => default

/-- `HuaweiInverter.get_state_int`: like `get_state_float` but the parsed
float is truncated toward zero with `int(...)`. -/
def get_state_int (inv : HuaweiInverter) (states : States)
    (entity_id : String) (default : Int := 0) : Int :=
  match find_entity_state inv states entity_id with
  | some st =>
    if st.state ≠ "unknown" ∧ st.state ≠ "unavailable" ∧ st.state ≠ "" then
      match parseFloat st.state with
      | some v => pyTrunc v
      | none => default
    else default
  | none => default

/-- `HuaweiInverter.get_state_text`: the raw state text unless it is a
sentinel or missing, in which case the default. -/
def get_state_text (inv : HuaweiInverter) (states : States)
    (entity_id : String) (default : String := "") : String :=
  match find_entity_state inv states entity_id with
  | some st =>
    if st.state ≠ "unknown" ∧ st.state ≠ "unavailable" ∧ st.state ≠ "" then st.state
    else default
  | none => default

/-- A Python float value as `float(s)` can produce it: a finite value
(idealized as an exact rational), a signed infinity, or NaN. -/
inductive PyFloat where
  | finite (q : Rat)
  | inf (pos : Bool)
  | nan
deriving DecidableEq

/-- Smallest magnitude at which IEEE-754 double rounding (to nearest,
ties to even) overflows to infinity: `2^1024 - 2^970`. -/
def overflowBound : Nat := 2 ^ 1024 - 2 ^ 970

/-- Whether the literal denoted by `parseFloatParts` output has magnitude
at least `overflowBound`, computed on integers: the value is
`mant * 10 ^ (exp - frac)`. -/
def partsOverflow (p : Int × Nat × Int) : Bool :=
  let mant := p.1.natAbs
  let k : Int := p.2.2 - (p.2.1 : Int)
  if 0 ≤ k then decide (overflowBound ≤ mant * 10 ^ k.toNat)
  else decide (overflowBound * 10 ^ (-k).toNat ≤ mant)

/-- Refined model of Python `float(s)`: accepts the signed, case-insensitive
special spellings `inf`, `infinity` and `nan`, saturates an overflowing
decimal literal (e.g. `"1e999"`) to a signed infinity as IEEE-754 doubles
do, keeps in-range literals as exact rationals, and returns `none` where
`float` raises `ValueError`. -/
def parsePyFloat (s : String) : Option PyFloat :=
  let (pos, body) : Bool × List Char :=
    match s.data with
    | '+' :: r => (true, r)
    | '-' :: r => (false, r)
    | r => (true, r)
  let lower := body.map Char.toLower
  if lower = "inf".data ∨ lower = "infinity".data then some (PyFloat.inf pos)
  else if lower = "nan".data then some PyFloat.nan
  else
    match parseFloatParts s with
    | none => none
    | some p =>
      if partsOverflow p then some (PyFloat.inf (decide (0 ≤ p.1)))
      else some (PyFloat.finite (ratOfParts p))

/-- Python `int(x)` on a float with the exception channel explicit:
truncation on a finite value, `OverflowError` on an infinity,
`ValueError` on NaN. -/
def pyTruncExc (f : PyFloat) : Except String Int :=
  match f with
  | PyFloat.finite q => Except.ok (pyTrunc q)
  | PyFloat.inf _ => Except.error "OverflowError"
  | PyFloat.nan => Except.error "ValueError"

/-- `HuaweiInverter.get_state_float` over the refined float model: the
`try` block catches only `ValueError`, and `float(s)` on a string raises
nothing else, so this helper is total — a sentinel or unparsable text
yields the default, and special spellings yield the parsed
infinity/NaN. -/
def get_state_float_pf (inv : HuaweiInverter) (states : States)
    (entity_id : String) (default : Rat := 0) : PyFloat :=
  match find_entity_state inv states entity_id with
  | some st =>
    if st.state ≠ "unknown" ∧ st.state ≠ "unavailable" ∧ st.state ≠ "" then
      match parsePyFloat st.state with
      | some f => f
      | none => PyFloat.finite default
    else PyFloat.finite default
  | none => PyFloat.finite default

/-- `HuaweiInverter.get_state_int` over the refined float model, with the
exception channel explicit: the `except ValueError` clause catches the
`ValueError` of `float(s)` (unparsable text) and of `int(nan)`, replacing
both by the default, but the `OverflowError` of `int(inf)` is not caught
and escapes to the caller. -/
def get_state_int_exc (inv : HuaweiInverter) (states : States)
    (entity_id : String) (default : Int := 0) : Except String Int :=
  match find_entity_state inv states entity_id with
  | some st =>
    if st.state ≠ "unknown" ∧ st.state ≠ "unavailable" ∧ st.state ≠ "" then
      match parsePyFloat st.state with
      | none => Except.ok default
      | some f =>
        match pyTruncExc f with
        | Except.ok n => Except.ok n
        | Except.error e => if e = "ValueError" then Except.ok default else Except.error e
    else Except.ok default
  | none => Except.ok default

/-- The `EnergyData` record populated by `get_energy_data`. -/
structure EnergyData where
  Power : List Rat
  Today : Int
  Total : Rat
  Current : List Rat
  Voltage : List Rat
  Frequency : Rat
deriving DecidableEq

/-- The `MetricsData` record populated by `get_metrics_data`. -/
structure MetricsData where
  PvPower : List Rat
  PvVoltage : List Rat
  PvCurrent : List Rat
  LoadPower : List Rat
  AlarmCodes : List Int
  BatterySOC : Int
  LoadCurrent : List Rat
  BatteryPower : List Rat
  BatteryCurrent : List Rat
  BatteryVoltage : List Rat
  InverterStatus : Int
  GridExportLimit : Rat
  BatteryTemperature : List Rat
  InverterTemperature : Rat
deriving DecidableEq

/-- `HuaweiInverter.get_energy_data`: reads the phase powers (negated), the
consumption total (negated), voltages, currents and frequency, assigns
`self.voltage`, and returns the updated instance with the record. -/
def get_energy_data (inv : HuaweiInverter) (states : States) :
    HuaweiInverter × EnergyData :=
  let power : List Rat :=
    [ get_state_float inv states "power_meter_phase_a_active_power" * -1
    , get_state_float inv states "power_meter_phase_b_active_power" * -1
    , get_state_float inv states "power_meter_phase_c_active_power" * -1 ]
  let today : Int := 0
  let total : Rat := get_state_float inv states "power_meter_consumption" * -1
  let voltage : List Rat :=
    [ get_state_float inv states "power_meter_phase_a_voltage"
    , get_state_float inv states "power_meter_phase_b_voltage"
    , get_state_float inv states "power_meter_phase_c_voltage" ]
  let inv2 : HuaweiInverter := { inv with voltage := some voltage }
  let current : List Rat :=
    [ get_state_float inv states "power_meter_phase_a_current"
    , get_state_float inv states "power_meter_phase_b_current"
    , get_state_float inv states "power_meter_phase_c_current" ]
  let frequency : Rat := get_state_float inv states "power_meter_frequency"
  ( inv2
  , { Power := power
      Today := today
      Total := total
      Current := current
      Voltage := voltage
      Frequency := frequency } )

/-- `HuaweiInverter.get_metrics_data`: PV string powers, derived load
power, battery metrics, placeholder constants and the grid export limit. -/
def get_metrics_data (inv : HuaweiInverter) (states : States) : MetricsData :=
  let pv_voltage_1 := get_state_float inv states "pv_1_voltage"
  let pv_current_1 := get_state_float inv states "pv_1_current"
  let pv_voltage_2 := get_state_float inv states "pv_2_voltage"
  let pv_current_2 := get_state_float inv states "pv_2_current"
  let pv_power : List Rat := [pv_voltage_1 * pv_current_1, pv_voltage_2 * pv_current_2]
  let pv_voltage : List Rat := [pv_voltage_1, pv_voltage_2]
  let pv_current : List Rat := [pv_current_1, pv_current_2]
  let inverter_active_power := get_state_float inv states "active_power"
  let power_meter_active_power := get_state_float inv states "power_meter_active_power"
  let load_power_total := inverter_active_power - power_meter_active_power
  let load_power : List Rat := [load_power_total]
  let load_current : List Rat := [0, 0, 0]
  let battery_power : List Rat := [get_state_float inv states "charge_discharge_power"]
  let battery_current : List Rat := [get_state_float inv states "bus_current"]
  let battery_voltage : List Rat := [get_state_float inv states "bus_voltage"]
  let battery_soc := get_state_int inv states "state_of_capacity"
  let battery_temperature : List Rat := [get_state_float inv states "battery_1_bms_temperature"]
  let inverter_status : Int := 2
  let inverter_temperature := get_state_float inv states "internal_temperature"
  let alarm_codes : List Int := [0, 0, 0, 0, 0, 0]
  let grid_export_limit := get_state_float inv states "inverter_power_derating"
  { PvPower := pv_power
    PvVoltage := pv_voltage
    PvCurrent := pv_current
    LoadPower := load_power
    AlarmCodes := alarm_codes
    BatterySOC := battery_soc
    LoadCurrent := load_current
    BatteryPower := battery_power
    BatteryCurrent := battery_current
    BatteryVoltage := battery_voltage
    InverterStatus := inverter_status
    GridExportLimit := grid_export_limit
    BatteryTemperature := battery_temperature
    InverterTemperature := inverter_temperature }

/-! ## Helper lemmas about the collected entity dict -/

/-- Overwriting a pair in place does not change its key. -/
lemma fst_dictInsert_map (k : String) (v : RegistryEntity) (p : String × RegistryEntity) :
    (if p.1 = k then (k, v) else p).1 = p.1 := by
  by_cases h : p.1 = k <;> simp [h]

/-- Keys after a dict assignment: unchanged on overwrite, appended on a
fresh key. -/
lemma dictKeys_dictInsert (m : List (String × RegistryEntity)) (k : String)
    (v : RegistryEntity) :
    dictKeys (dictInsert m k v) =
      if k ∈ dictKeys m then dictKeys m else dictKeys m ++ [k] := by
  by_cases hk : k ∈ dictKeys m
  · rw [dictInsert, if_pos hk, if_pos hk, dictKeys, dictKeys, List.map_map]
    exact List.map_congr_left fun p _ => fst_dictInsert_map k v p
  · rw [dictInsert, if_neg hk, if_neg hk]
    simp [dictKeys]

/-- Key membership after a dict assignment. -/
lemma mem_dictKeys_dictInsert (m : List (String × RegistryEntity)) (k x : String)
    (v : RegistryEntity) :
    x ∈ dictKeys (dictInsert m k v) ↔ x = k ∨ x ∈ dictKeys m := by
  rw [dictKeys_dictInsert]
  by_cases hk : k ∈ dictKeys m
  · rw [if_pos hk]
    constructor
    · exact Or.inr
    · rintro (rfl | h)
      · exact hk
      · exact h
  · rw [if_neg hk]
    simp [or_comm]

/-- Unfolding of the entity-registry pass one entity at a time. -/
lemma addEnabledEntities_cons (e : RegistryEntity) (es : List RegistryEntity)
    (devId : String) (m : List (String × RegistryEntity)) :
    addEnabledEntities (e :: es) devId m =
      addEnabledEntities es devId
        (if e.device_id = devId ∧ e.disabled_by = none then dictInsert m e.entity_id e
         else m) := rfl

/-- A key is collected by the entity-registry pass exactly when it was
already present or belongs to an enabled entity of the given device. -/
lemma mem_dictKeys_addEnabledEntities (entities : List RegistryEntity) (devId x : String) :
    ∀ m, x ∈ dictKeys (addEnabledEntities entities devId m) ↔
      x ∈ dictKeys m ∨
        ∃ e ∈ entities, e.device_id = devId ∧ e.disabled_by = none ∧ e.entity_id = x := by
  induction entities with
  | nil => intro m; simp [addEnabledEntities]
  | cons e es ih =>
    intro m
    rw [addEnabledEntities_cons, ih]
    by_cases hc : e.device_id = devId ∧ e.disabled_by = none
    · rw [if_pos hc, mem_dictKeys_dictInsert]
      constructor
      · rintro ((rfl | h) | h)
        · exact Or.inr ⟨e, List.mem_cons_self e es, hc.1, hc.2, rfl⟩
        · exact Or.inl h
        · obtain ⟨e1, he1, h1, h2, h3⟩ := h
          exact Or.inr ⟨e1, List.mem_cons_of_mem e he1, h1, h2, h3⟩
      · rintro (h | ⟨e1, he1, h1, h2, h3⟩)
        · exact Or.inl (Or.inr h)
        · rcases List.mem_cons.mp he1 with heq | he1
          · subst heq
            exact Or.inl (Or.inl h3.symm)
          · exact Or.inr ⟨e1, he1, h1, h2, h3⟩
    · rw [if_neg hc]
      constructor
      · rintro (h | ⟨e1, he1, h1, h2, h3⟩)
        · exact Or.inl h
        · exact Or.inr ⟨e1, List.mem_cons_of_mem e he1, h1, h2, h3⟩
      · rintro (h | ⟨e1, he1, h1, h2, h3⟩)
        · exact Or.inl h
        · rcases List.mem_cons.mp he1 with heq | he1
          · subst heq
            exact absurd ⟨h1, h2⟩ hc
          · exact Or.inr ⟨e1, he1, h1, h2, h3⟩

/-- The `enabled_count` test succeeds exactly when the device has an
enabled entity. -/
lemma enabledCount_pos (entities : List RegistryEntity) (devId : String) :
    0 < enabledCount entities devId ↔
      ∃ e ∈ entities, e.device_id = devId ∧ e.disabled_by = none := by
  rw [enabledCount, ← List.countP_eq_length_filter, List.countP_pos_iff]
  simp

/-- A key is collected by the child-device loop exactly when it was already
present or belongs to an enabled entity of some child of the root. -/
lemma mem_dictKeys_foldl_childStep (entities : List RegistryEntity) (root x : String)
    (devices : List RegistryDevice) :
    ∀ acc, x ∈ dictKeys (devices.foldl (childStep entities root) acc) ↔
      x ∈ dictKeys acc ∨
        ∃ d ∈ devices, d.via_device_id = some root ∧
          ∃ e ∈ entities, e.device_id = d.id ∧ e.disabled_by = none ∧ e.entity_id = x := by
  induction devices with
  | nil => intro acc; simp
  | cons d ds ih =>
    intro acc
    rw [List.foldl_cons, ih]
    show _ ↔ _
    unfold childStep
    by_cases hv : d.via_device_id = some root
    · rw [if_pos hv]
      by_cases hcnt : 0 < enabledCount entities d.id
      · rw [if_pos hcnt, mem_dictKeys_addEnabledEntities]
        constructor
        · rintro ((h | ⟨e, he, h1, h2, h3⟩) | h)
          · exact Or.inl h
          · exact Or.inr ⟨d, List.mem_cons_self d ds, hv, e, he, h1, h2, h3⟩
          · obtain ⟨d1, hd1, hv1, rest⟩ := h
            exact Or.inr ⟨d1, List.mem_cons_of_mem d hd1, hv1, rest⟩
        · rintro (h | ⟨d1, hd1, hv1, rest⟩)
          · exact Or.inl (Or.inl h)
          · rcases List.mem_cons.mp hd1 with heq | hd1
            · subst heq
              exact Or.inl (Or.inr rest)
            · exact Or.inr ⟨d1, hd1, hv1, rest⟩
      · rw [if_neg hcnt]
        constructor
        · rintro (h | ⟨d1, hd1, hv1, rest⟩)
          · exact Or.inl h
          · exact Or.inr ⟨d1, List.mem_cons_of_mem d hd1, hv1, rest⟩
        · rintro (h | ⟨d1, hd1, hv1, rest⟩)
          · exact Or.inl h
          · rcases List.mem_cons.mp hd1 with heq | hd1
            · subst heq
              obtain ⟨e, he, h1, h2, _⟩ := rest
              exact absurd ((enabledCount_pos entities d1.id).mpr ⟨e, he, h1, h2⟩) hcnt
            · exact Or.inr ⟨d1, hd1, hv1, rest⟩
    · rw [if_neg hv]
      constructor
      · rintro (h | ⟨d1, hd1, hv1, rest⟩)
        · exact Or.inl h
        · exact Or.inr ⟨d1, List.mem_cons_of_mem d hd1, hv1, rest⟩
      · rintro (h | ⟨d1, hd1, hv1, rest⟩)
        · exact Or.inl h
        · rcases List.mem_cons.mp hd1 with heq | hd1
          · subst heq
            exact absurd hv1 hv
          · exact Or.inr ⟨d1, hd1, hv1, rest⟩

/-- Unfolding equation for the child-device loop body. -/
lemma childStep_eq (entities : List RegistryEntity) (root : String)
    (acc : List (String × RegistryEntity)) (d : RegistryDevice) :
    childStep entities root acc d =
      if d.via_device_id = some root then
        if 0 < enabledCount entities d.id then addEnabledEntities entities d.id acc else acc
      else acc := rfl

/-- The child-device loop is the identity when no device points at the
root. -/
lemma foldl_childStep_id (entities : List RegistryEntity) (root : String)
    (devices : List RegistryDevice) (h : ∀ d ∈ devices, d.via_device_id ≠ some root) :
    ∀ acc, devices.foldl (childStep entities root) acc = acc := by
  induction devices with
  | nil => intro acc; rfl
  | cons d ds ih =>
    intro acc
    rw [List.foldl_cons, childStep_eq, if_neg (h d (List.mem_cons_self d ds))]
    exact ih (fun d1 hd1 => h d1 (List.mem_cons_of_mem d hd1)) acc

/-- A dict assignment with a fresh key appends the pair. -/
lemma dictInsert_not_mem (m : List (String × RegistryEntity)) (k : String)
    (v : RegistryEntity) (hk : k ∉ dictKeys m) : dictInsert m k v = m ++ [(k, v)] := by
  rw [dictInsert, if_neg hk]

/-- The `enabled_count` of a registry headed by one entity. -/
lemma enabledCount_cons (e : RegistryEntity) (es : List RegistryEntity) (devId : String) :
    enabledCount (e :: es) devId =
      if e.device_id = devId ∧ e.disabled_by = none then enabledCount es devId + 1
      else enabledCount es devId := by
  by_cases hc : e.device_id = devId ∧ e.disabled_by = none <;>
    simp [enabledCount, List.filter_cons, hc]

/-- With pairwise-distinct entity identifiers all fresh for the
accumulator, the entity-registry pass adds exactly one entry per enabled
entity of the device. -/
lemma addEnabledEntities_length (devId : String) (entities : List RegistryEntity) :
    ∀ m, List.Pairwise (fun a b => a.entity_id ≠ b.entity_id) entities →
      (∀ e ∈ entities, e.device_id = devId → e.disabled_by = none →
        e.entity_id ∉ dictKeys m) →
      (addEnabledEntities entities devId m).length = m.length + enabledCount entities devId := by
  induction entities with
  | nil => intro m _ _; simp [addEnabledEntities, enabledCount]
  | cons e es ih =>
    intro m hp hfresh
    rw [addEnabledEntities_cons, enabledCount_cons]
    by_cases hc : e.device_id = devId ∧ e.disabled_by = none
    · rw [if_pos hc, if_pos hc,
        dictInsert_not_mem m e.entity_id e (hfresh e (List.mem_cons_self e es) hc.1 hc.2)]
      have hfresh2 : ∀ e1 ∈ es, e1.device_id = devId → e1.disabled_by = none →
          e1.entity_id ∉ dictKeys (m ++ [(e.entity_id, e)]) := by
        intro e1 he1 h1 h2
        simp only [dictKeys, List.map_append, List.mem_append, List.map_cons, List.map_nil,
          List.mem_singleton, not_or]
        constructor
        · exact hfresh e1 (List.mem_cons_of_mem e he1) h1 h2
        · intro h
          exact (List.pairwise_cons.mp hp).1 e1 he1 h.symm
      rw [ih (m ++ [(e.entity_id, e)]) (List.pairwise_cons.mp hp).2 hfresh2,
        List.length_append]
      simp
      omega
    · rw [if_neg hc, if_neg hc]
      exact ih m (List.pairwise_cons.mp hp).2
        (fun e1 he1 => hfresh e1 (List.mem_cons_of_mem e he1))

/-! ## Claim theorems -/

/-- Claim C1: the collected entity set contains exactly the enabled
entities of the root device plus the enabled entities of the devices whose
`via_device_id` is the root (a child with no enabled entity therefore
contributes nothing, disabled entities included); and for a registry with
pairwise-distinct entity identifiers and no child device, the set has
exactly one entry per enabled entity of the root. -/
theorem collect_device_entities_spec (entities : List RegistryEntity)
    (devices : List RegistryDevice) (root : String) :
    (∀ x, x ∈ dictKeys (collect_device_entities entities devices root) ↔
       ∃ e ∈ entities, e.disabled_by = none ∧ e.entity_id = x ∧
         (e.device_id = root ∨
          ∃ d ∈ devices, d.via_device_id = some root ∧ e.device_id = d.id))
    ∧ (List.Pairwise (fun a b => a.entity_id ≠ b.entity_id) entities →
       (∀ d ∈ devices, d.via_device_id ≠ some root) →
       (collect_device_entities entities devices root).length =
         enabledCount entities root) := by
  constructor
  · intro x
    rw [collect_device_entities, mem_dictKeys_foldl_childStep,
      mem_dictKeys_addEnabledEntities]
    simp only [dictKeys, List.map_nil, List.not_mem_nil, false_or]
    constructor
    · rintro (⟨e, he, h1, h2, h3⟩ | ⟨d, hd, hv, e, he, h1, h2, h3⟩)
      · exact ⟨e, he, h2, h3, Or.inl h1⟩
      · exact ⟨e, he, h2, h3, Or.inr ⟨d, hd, hv, h1⟩⟩
    · rintro ⟨e, he, h2, h3, (h1 | ⟨d, hd, hv, h1⟩)⟩
      · exact Or.inl ⟨e, he, h1, h2, h3⟩
      · exact Or.inr ⟨d, hd, hv, e, he, h1, h2, h3⟩
  · intro hp hnc
    rw [collect_device_entities, foldl_childStep_id entities root devices hnc,
      addEnabledEntities_length root entities [] hp (by simp [dictKeys])]
    simp

/-- Witness for C1: a root with two enabled entities and one disabled
entity, and a device registry whose only device is not a child of the
root, yields a set of exactly the enabled-entity count. -/
theorem collect_device_entities_spec_witness :
    (collect_device_entities
        [⟨"sensor.a", "root", none⟩, ⟨"sensor.b", "root", some "user"⟩,
         ⟨"sensor.c", "root", none⟩]
        [⟨"child", some "other"⟩] "root").length =
      enabledCount
        [⟨"sensor.a", "root", none⟩, ⟨"sensor.b", "root", some "user"⟩,
         ⟨"sensor.c", "root", none⟩] "root" :=
  (collect_device_entities_spec _ _ "root").2 (by decide) (by decide)

/-- The first list entry whose key satisfies the test is the one `find?`
returns, past any prefix of failing entries. -/
lemma find_first (q : String × RegistryEntity → Bool) (x : String × RegistryEntity)
    (hx : q x = true) : ∀ l₁ l₂, (∀ p ∈ l₁, q p = false) →
      (l₁ ++ x :: l₂).find? q = some x := by
  intro l₁
  induction l₁ with
  | nil => intro l₂ _; simp [List.find?_cons_of_pos _ hx]
  | cons a l ih =>
    intro l₂ h
    rw [List.cons_append,
      List.find?_cons_of_neg _ (by simp [h a (List.mem_cons_self a l)])]
    exact ih l₂ (fun p hp => h p (List.mem_cons_of_mem a hp))

/-- Claim C2: for a logical name other than `"inverter_power_derating"`,
resolution returns the state of the first collected key (in map iteration
order) that ends with the name, and no-value when no key ends with it. -/
theorem find_entity_state_suffix_scan (inv : HuaweiInverter) (states : States)
    (name : String) (hname : name ≠ "inverter_power_derating") :
    (∀ l₁ x l₂, inv.all_entities = l₁ ++ x :: l₂ →
       (∀ p ∈ l₁, endswith p.1 name = false) → endswith x.1 name = true →
       find_entity_state inv states name = states x.1)
    ∧ ((∀ p ∈ inv.all_entities, endswith p.1 name = false) →
       find_entity_state inv states name = none) := by
  constructor
  · intro l₁ x l₂ hsplit h1 hx
    rw [find_entity_state, if_neg hname, hsplit, find_first _ x hx l₁ l₂ h1]
  · intro hall
    rw [find_entity_state, if_neg hname,
      List.find?_eq_none.mpr (fun p hp => by simp [hall p hp])]

/-- Witness for C2: with collected keys `sensor.other` and `sensor.h_x`,
the name `"x"` resolves to the state of `sensor.h_x`. -/
theorem find_entity_state_suffix_scan_witness :
    find_entity_state
      { device_id := "dev",
        all_entities :=
          [("sensor.other", ⟨"sensor.other", "dev", none⟩),
           ("sensor.h_x", ⟨"sensor.h_x", "dev", none⟩)],
        voltage := none }
      (fun s => if s = "sensor.h_x" then some ⟨"1"⟩ else none) "x" = some ⟨"1"⟩ :=
  (find_entity_state_suffix_scan _ _ "x" (by decide)).1
    [("sensor.other", ⟨"sensor.other", "dev", none⟩)]
    ("sensor.h_x", ⟨"sensor.h_x", "dev", none⟩) [] rfl (by decide) (by decide)

/-- Claim C5: resolving `"inverter_power_derating"` always queries the
fixed identifier `number.inverter_power_derating`, whatever the collected
entity set holds. -/
theorem find_entity_state_derating (inv : HuaweiInverter) (states : States) :
    find_entity_state inv states "inverter_power_derating" =
      states "number.inverter_power_derating" := by
  rw [find_entity_state, if_pos rfl]

/-- Claim C10: resolution commits to the first suffix-matching collected
key: when that key has no recorded state, the result is no-value even if a
later key with the same suffix has one. -/
theorem find_entity_state_first_match_only (inv : HuaweiInverter) (states : States)
    (name : String) (hname : name ≠ "inverter_power_derating")
    (l₁ : List (String × RegistryEntity)) (x : String × RegistryEntity)
    (l₂ : List (String × RegistryEntity)) (hsplit : inv.all_entities = l₁ ++ x :: l₂)
    (h1 : ∀ p ∈ l₁, endswith p.1 name = false) (hx : endswith x.1 name = true)
    (hnone : states x.1 = none) :
    find_entity_state inv states name = none := by
  rw [find_entity_state, if_neg hname, hsplit, find_first _ x hx l₁ l₂ h1]
  exact hnone

/-- Witness for C10: the first matching key `sensor.h_x` has no state, so
resolution of `"x"` yields no-value although the later matching key
`sensor.z_x` does have a state. -/
theorem find_entity_state_first_match_only_witness :
    find_entity_state
      { device_id := "dev",
        all_entities :=
          [("sensor.h_x", ⟨"sensor.h_x", "dev", none⟩),
           ("sensor.z_x", ⟨"sensor.z_x", "dev", none⟩)],
        voltage := none }
      (fun s => if s = "sensor.z_x" then some ⟨"7"⟩ else none) "x" = none ∧
    (fun s => if s = "sensor.z_x" then some (⟨"7"⟩ : StateObj) else none) "sensor.z_x" =
      some ⟨"7"⟩ :=
  ⟨find_entity_state_first_match_only _ _ "x" (by decide) []
      ("sensor.h_x", ⟨"sensor.h_x", "dev", none⟩)
      [("sensor.z_x", ⟨"sensor.z_x", "dev", none⟩)] rfl (by decide) (by decide) rfl,
   rfl⟩

/-- `Rat.floor` agrees with the floor of the ordered field `ℚ`. -/
lemma rat_floor_eq_intFloor (q : Rat) : Rat.floor q = ⌊q⌋ := by
  rw [Rat.floor_def', Rat.floor_def]

set_option maxRecDepth 8000 in
/-- Counterexample for C4: state text that `float()` turns into an
infinity makes `get_state_int` raise an uncaught `OverflowError` — only
`ValueError` is caught — both for the spelling `"inf"` and for the
overflowing literal `"1e999"`. -/
theorem get_state_int_exc_raises_overflow :
    get_state_int_exc
      { device_id := "dev",
        all_entities := [("sensor.h_x", ⟨"sensor.h_x", "dev", none⟩)],
        voltage := none }
      (fun s => if s = "sensor.h_x" then some ⟨"inf"⟩ else none) "x" 0 =
      Except.error "OverflowError" ∧
    get_state_int_exc
      { device_id := "dev",
        all_entities := [("sensor.h_x", ⟨"sensor.h_x", "dev", none⟩)],
        voltage := none }
      (fun s => if s = "sensor.h_x" then some ⟨"1e999"⟩ else none) "x" 0 =
      Except.error "OverflowError" :=
  ⟨rfl, rfl⟩

/-- Claim C4 as amended: the typed extraction helpers replace caught
failures by the caller-specified default — a missing state, a sentinel
text, text `float()` cannot parse, and NaN (whose `int()` conversion
raises a caught `ValueError`) all default, and `asFloat`/`asText` never
raise — but `asInt` raises an uncaught `OverflowError` exactly when the
state text parses to an infinite float (e.g. `"inf"` or `"1e999"`). -/
theorem typed_extraction_error_spec (inv : HuaweiInverter) (states : States)
    (name : String) (df : Rat) (di : Int) (dt : String) :
    (find_entity_state inv states name = none →
       get_state_float_pf inv states name df = PyFloat.finite df ∧
       get_state_int_exc inv states name di = Except.ok di ∧
       get_state_text inv states name dt = dt)
    ∧ (∀ st, find_entity_state inv states name = some st →
       (st.state = "unknown" ∨ st.state = "unavailable" ∨ st.state = "") →
       get_state_float_pf inv states name df = PyFloat.finite df ∧
       get_state_int_exc inv states name di = Except.ok di ∧
       get_state_text inv states name dt = dt)
    ∧ (∀ st, find_entity_state inv states name = some st →
       parsePyFloat st.state = none →
       get_state_float_pf inv states name df = PyFloat.finite df ∧
       get_state_int_exc inv states name di = Except.ok di)
    ∧ (∀ st, find_entity_state inv states name = some st →
       parsePyFloat st.state = some PyFloat.nan →
       get_state_int_exc inv states name di = Except.ok di)
    ∧ (∀ st v, find_entity_state inv states name = some st →
       st.state ≠ "unknown" → st.state ≠ "unavailable" → st.state ≠ "" →
       parsePyFloat st.state = some (PyFloat.finite v) →
       get_state_int_exc inv states name di = Except.ok (pyTrunc v))
    ∧ (∀ st b, find_entity_state inv states name = some st →
       st.state ≠ "unknown" → st.state ≠ "unavailable" → st.state ≠ "" →
       parsePyFloat st.state = some (PyFloat.inf b) →
       get_state_int_exc inv states name di = Except.error "OverflowError")
    ∧ (∀ e, get_state_int_exc inv states name di = Except.error e →
       e = "OverflowError" ∧
       ∃ st b, find_entity_state inv states name = some st ∧
         parsePyFloat st.state = some (PyFloat.inf b)) := by
  refine ⟨?_, ?_, ?_, ?_, ?_, ?_, ?_⟩
  · intro hf
    refine ⟨?_, ?_, ?_⟩
    · simp only [get_state_float_pf, hf]
    · simp only [get_state_int_exc, hf]
    · simp only [get_state_text, hf]
  · intro st hst hs
    have hcond : ¬(st.state ≠ "unknown" ∧ st.state ≠ "unavailable" ∧ st.state ≠ "") := by
      rcases hs with h | h | h <;> simp [h]
    refine ⟨?_, ?_, ?_⟩
    · simp only [get_state_float_pf, hst]
      rw [if_neg hcond]
    · simp only [get_state_int_exc, hst]
      rw [if_neg hcond]
    · simp only [get_state_text, hst]
      rw [if_neg hcond]
  · intro st hst hp
    by_cases hcond : st.state ≠ "unknown" ∧ st.state ≠ "unavailable" ∧ st.state ≠ ""
    · constructor
      · simp only [get_state_float_pf, hst]
        rw [if_pos hcond]
        simp only [hp]
      · simp only [get_state_int_exc, hst]
        rw [if_pos hcond]
        simp only [hp]
    · constructor
      · simp only [get_state_float_pf, hst]
        rw [if_neg hcond]
      · simp only [get_state_int_exc, hst]
        rw [if_neg hcond]
  · intro st hst hp
    by_cases hcond : st.state ≠ "unknown" ∧ st.state ≠ "unavailable" ∧ st.state ≠ ""
    · simp only [get_state_int_exc, hst]
      rw [if_pos hcond]
      simp only [hp, pyTruncExc]
      rw [if_true]
    · simp only [get_state_int_exc, hst]
      rw [if_neg hcond]
  · intro st v hst h1 h2 h3 hp
    simp only [get_state_int_exc, hst]
    rw [if_pos ⟨h1, h2, h3⟩]
    simp only [hp, pyTruncExc]
  · intro st b hst h1 h2 h3 hp
    simp only [get_state_int_exc, hst]
    rw [if_pos ⟨h1, h2, h3⟩]
    simp only [hp, pyTruncExc]
    rw [if_neg (by decide)]
  · intro e he
    rcases hf : find_entity_state inv states name with _ | st
    · simp only [get_state_int_exc, hf] at he
      exact Except.noConfusion he
    · simp only [get_state_int_exc, hf] at he
      by_cases hcond : st.state ≠ "unknown" ∧ st.state ≠ "unavailable" ∧ st.state ≠ ""
      · rw [if_pos hcond] at he
        rcases hp : parsePyFloat st.state with _ | f
        · simp only [hp] at he
          exact Except.noConfusion he
        · rcases f with v | b | _
          · simp only [hp, pyTruncExc] at he
            exact Except.noConfusion he
          · simp only [hp, pyTruncExc] at he
            rw [if_neg (by decide)] at he
            injection he with h
            exact ⟨h.symm, st, b, rfl, hp⟩
          · simp only [hp, pyTruncExc] at he
            rw [if_true] at he
            exact Except.noConfusion he
      · rw [if_neg hcond] at he
        exact Except.noConfusion he

/-- Witness for C4: the non-numeric state text `"N/A"` makes the float
helper return its default as a finite value and the int helper return its
default without raising. -/
theorem typed_extraction_error_spec_witness :
    get_state_float_pf
      { device_id := "dev",
        all_entities := [("sensor.h_x", ⟨"sensor.h_x", "dev", none⟩)],
        voltage := none }
      (fun s => if s = "sensor.h_x" then some ⟨"N/A"⟩ else none) "x" 3 =
      PyFloat.finite 3 ∧
    get_state_int_exc
      { device_id := "dev",
        all_entities := [("sensor.h_x", ⟨"sensor.h_x", "dev", none⟩)],
        voltage := none }
      (fun s => if s = "sensor.h_x" then some ⟨"N/A"⟩ else none) "x" 7 =
      Except.ok 7 :=
  (typed_extraction_error_spec _ _ "x" 3 7 "t").2.2.1 ⟨"N/A"⟩ (by decide) (by decide)

/-- Claim C8: `get_state_float` returns the default when the state is
missing, a sentinel (`"unknown"`, `"unavailable"`, `""`), or text `float`
cannot parse, and otherwise the parsed value of the state text. -/
theorem get_state_float_spec (inv : HuaweiInverter) (states : States)
    (name : String) (df : Rat) :
    (find_entity_state inv states name = none → get_state_float inv states name df = df)
    ∧ (∀ st, find_entity_state inv states name = some st →
       ((st.state = "unknown" ∨ st.state = "unavailable" ∨ st.state = "" ∨
         parseFloat st.state = none) → get_state_float inv states name df = df)
       ∧ (∀ v, parseFloat st.state = some v → st.state ≠ "unknown" →
         st.state ≠ "unavailable" → st.state ≠ "" →
         get_state_float inv states name df = v)) := by
  constructor
  · intro hst
    simp only [get_state_float, hst]
  · intro st hst
    constructor
    · intro hs
      by_cases hcond : st.state ≠ "unknown" ∧ st.state ≠ "unavailable" ∧ st.state ≠ ""
      · have hp : parseFloat st.state = none := by
          rcases hs with h | h | h | h
          · exact absurd h hcond.1
          · exact absurd h hcond.2.1
          · exact absurd h hcond.2.2
          · exact h
        simp only [get_state_float, hst]
        rw [if_pos hcond]
        simp only [hp]
      · simp only [get_state_float, hst]
        rw [if_neg hcond]
    · intro v hp h1 h2 h3
      simp only [get_state_float, hst]
      rw [if_pos ⟨h1, h2, h3⟩]
      simp only [hp]

/-- Witness for C8: the parsable state text `"12.7"` makes
`get_state_float` return its parsed value `127/10`. -/
theorem get_state_float_spec_witness :
    get_state_float
      { device_id := "dev",
        all_entities := [("sensor.h_x", ⟨"sensor.h_x", "dev", none⟩)],
        voltage := none }
      (fun s => if s = "sensor.h_x" then some ⟨"12.7"⟩ else none) "x" 0 =
      (127 : Rat) / 10 :=
  ((get_state_float_spec _ _ "x" 0).2 ⟨"12.7"⟩ (by decide)).2 ((127 : Rat) / 10)
    (by rw [parseFloat, show parseFloatParts "12.7" = some (127, 1, 0) from by decide]
        simp [ratOfParts])
    (by decide) (by decide) (by decide)

/-- Claim C9: `get_state_int` parses the state text as a float and
truncates toward zero (ceiling of a negative value, floor of a
nonnegative one); in particular a resolved state `"12.7"` yields `12` for
any default. -/
theorem get_state_int_truncates (inv : HuaweiInverter) (states : States)
    (name : String) (d : Int) :
    (∀ st, find_entity_state inv states name = some st →
       st.state ≠ "unknown" → st.state ≠ "unavailable" → st.state ≠ "" →
       ∀ v, parseFloat st.state = some v →
         get_state_int inv states name d = if v < 0 then ⌈v⌉ else ⌊v⌋)
    ∧ (∀ st, find_entity_state inv states name = some st → st.state = "12.7" →
       get_state_int inv states name d = 12) := by
  constructor
  · intro st hst h1 h2 h3 v hp
    simp only [get_state_int, hst]
    rw [if_pos ⟨h1, h2, h3⟩]
    simp only [hp, pyTrunc]
    by_cases hv : v < 0
    · rw [if_pos hv, if_pos hv, rat_floor_eq_intFloor, Int.floor_neg, neg_neg]
    · rw [if_neg hv, if_neg hv, rat_floor_eq_intFloor]
  · intro st hst hs
    have hp : parseFloat st.state = some ((127 : Rat) / 10) := by
      rw [hs, parseFloat, show parseFloatParts "12.7" = some (127, 1, 0) from by decide]
      simp [ratOfParts]
    have hcond : st.state ≠ "unknown" ∧ st.state ≠ "unavailable" ∧ st.state ≠ "" := by
      rw [hs]
      exact ⟨by decide, by decide, by decide⟩
    simp only [get_state_int, hst]
    rw [if_pos hcond]
    simp only [hp, pyTrunc]
    rw [if_neg (by norm_num), rat_floor_eq_intFloor]
    norm_num

/-- Witness for C9: a resolved state `"12.7"` with default `5` yields
`12`. -/
theorem get_state_int_truncates_witness :
    get_state_int
      { device_id := "dev",
        all_entities := [("sensor.h_x", ⟨"sensor.h_x", "dev", none⟩)],
        voltage := none }
      (fun s => if s = "sensor.h_x" then some ⟨"12.7"⟩ else none) "x" 5 = 12 :=
  (get_state_int_truncates _ _ "x" 5).2 ⟨"12.7"⟩ (by decide) rfl

/-- Counterexample for C3: `get_energy_data` does not leave the adapter
unchanged — on an adapter whose `voltage` attribute is still unset, the
call overwrites it. -/
theorem get_energy_data_mutates_voltage :
    (get_energy_data
        { device_id := "dev", all_entities := [], voltage := none }
        (fun _ => none)).1 ≠
      { device_id := "dev", all_entities := [], voltage := none } := by
  decide

/-- Claim C3 as amended: `get_energy_data` leaves `device_id` and the
collected entity set unchanged and the returned record is a pure function
of the current state (independent of the previously stored `voltage`
attribute), but it does assign the adapter's `voltage` attribute to the
freshly read per-phase voltages. -/
theorem get_energy_data_frame (inv : HuaweiInverter) (states : States) :
    ((get_energy_data inv states).1.device_id = inv.device_id)
    ∧ ((get_energy_data inv states).1.all_entities = inv.all_entities)
    ∧ ((get_energy_data inv states).1.voltage =
        some [ get_state_float inv states "power_meter_phase_a_voltage" 0
             , get_state_float inv states "power_meter_phase_b_voltage" 0
             , get_state_float inv states "power_meter_phase_c_voltage" 0 ])
    ∧ (∀ v, (get_energy_data { inv with voltage := v } states).2 =
        (get_energy_data inv states).2) :=
  ⟨rfl, rfl, rfl, fun _ => rfl⟩

/-- Claim C6: the energy record's `Power` entries are the per-phase active
powers negated, `Today` is the constant `0`, and `Total` is the
consumption meter value negated. -/
theorem get_energy_data_fields (inv : HuaweiInverter) (states : States) :
    ((get_energy_data inv states).2.Power =
       [ -(get_state_float inv states "power_meter_phase_a_active_power" 0)
       , -(get_state_float inv states "power_meter_phase_b_active_power" 0)
       , -(get_state_float inv states "power_meter_phase_c_active_power" 0) ])
    ∧ ((get_energy_data inv states).2.Today = 0)
    ∧ ((get_energy_data inv states).2.Total =
        -(get_state_float inv states "power_meter_consumption" 0)) := by
  refine ⟨?_, rfl, ?_⟩ <;> simp [get_energy_data, mul_neg_one]

/-- Claim C7: the metrics record's `PvPower` is the per-string product of
PV voltage and current, and `LoadPower` is the one-element list holding
the inverter active power minus the grid-meter active power. -/
theorem get_metrics_data_derived (inv : HuaweiInverter) (states : States) :
    ((get_metrics_data inv states).PvPower =
       [ get_state_float inv states "pv_1_voltage" 0 *
           get_state_float inv states "pv_1_current" 0
       , get_state_float inv states "pv_2_voltage" 0 *
           get_state_float inv states "pv_2_current" 0 ])
    ∧ ((get_metrics_data inv states).LoadPower =
       [ get_state_float inv states "active_power" 0 -
           get_state_float inv states "power_meter_active_power" 0 ]) :=
  ⟨rfl, rfl⟩
